import Mathlib

/-!
Shallow embedding of the attention-desk metrics engine.

Timestamps and metric values are embedded as rationals (`ℚ`): the Python code
computes with float hours and integer counts, and every operation the claims
touch (subtraction, division, comparison, clamping, median) is exact rational
arithmetic on the inputs considered here.  Optional / nullable columns are
`Option` values.  Database reads become explicit parameters, database writes
become returned values.
-/

/-! ## Velocity calculator (src/metrics/velocity.py) -/

/-- One snapshot row as read back by `get_snapshots_for_post`.  `ts` is the
snapshot timestamp in hours (the code parses ISO strings to datetimes and only
ever subtracts them and compares them, which the rational embedding mirrors). -/
structure Snapshot where
  ts : ℚ
  view_count : Option ℤ := none
  like_count : Option ℤ := none
  comment_count : Option ℤ := none
  score : Option ℤ := none
  num_comments : Option ℤ := none
  deriving DecidableEq

/-- The body of the scan loop of `find_comparison_snapshot` (velocity.py
lines 63-71): keep the in-window snapshot with the strictly smallest distance
to the target time, so an earlier snapshot wins a tie. -/
def fcs_step (window_start window_end target_time : ℚ)
    (acc : Option (Snapshot × ℚ)) (snap : Snapshot) : Option (Snapshot × ℚ) :=
  if window_start ≤ snap.ts ∧ snap.ts ≤ window_end then
    let distance := |snap.ts - target_time|
    match acc with
    | none => some (snap, distance)
    | some (best_snapshot, best_distance) =>
        if distance < best_distance then some (snap, distance)
        else some (best_snapshot, best_distance)
  else acc

/-- Embeds `find_comparison_snapshot` (velocity.py lines 36-73). -/
def find_comparison_snapshot (snapshots : List Snapshot) (now : ℚ)
    (target_hours window_start_hours window_end_hours : ℚ) : Option Snapshot :=
  (snapshots.foldl
    (fcs_step (now - window_start_hours) (now - window_end_hours) (now - target_hours))
    none).map Prod.fst

/-- Embeds `calculate_velocity` (velocity.py lines 76-92). -/
def calculate_velocity (current_value comparison_value : Option ℤ)
    (hours_elapsed : ℚ) : Option ℚ :=
  match current_value, comparison_value with
  | some cv, some pv =>
      if hours_elapsed ≤ 0 then none
      else some (((cv - pv : ℤ) : ℚ) / hours_elapsed)
  | _, _ => none

/-- Python `a or b` on two nullable integers: `None` and `0` are both falsy. -/
def py_or_int (a b : Option ℤ) : Option ℤ :=
  match a with
  | some v => if v = 0 then b else some v
  | none => b

/-- The snapshot column named by `metric_key` in `compute_post_velocity`. -/
inductive MetricKey where
  | score
  | num_comments
  | view_count
  deriving DecidableEq

/-- Embeds `snap.get(metric_key)` (velocity.py lines 150, 162). -/
def Snapshot.metric (s : Snapshot) : MetricKey → Option ℤ
  | .score => s.score
  | .num_comments => s.num_comments
  | .view_count => s.view_count

/-- The columns of a `posts` row used by `compute_post_velocity`.
`published_at` is in hours, like `Snapshot.ts`. -/
structure Post where
  post_id : String
  source : String
  actor_id : String
  published_at : ℚ
  deriving DecidableEq

/-- Embeds `VelocityResult` (velocity.py lines 13-20). -/
structure VelocityResult where
  post_id : String
  velocity_6h : Option ℚ := none
  velocity_24h : Option ℚ := none
  snapshot_count : ℕ := 0
  post_age_hours : Option ℚ := none
  deriving DecidableEq

/-- The metric choice of `compute_post_velocity` (velocity.py lines 133-139):
`current_metric = snap.get("score") or snap.get("num_comments")` (truthiness,
so a present score of `0` falls through to the comment count) while
`metric_key = "score" if snap.get("score") is not None else "num_comments"`. -/
def current_metric_and_key (post : Post) (current_snap : Snapshot) :
    Option ℤ × MetricKey :=
  if post.source = "reddit" then
    (py_or_int current_snap.score current_snap.num_comments,
     if current_snap.score.isSome then MetricKey.score else MetricKey.num_comments)
  else
    (current_snap.view_count, MetricKey.view_count)

/-- The 6h comparison lookup of `compute_post_velocity` (velocity.py
lines 143-146): target 6, window `[t-8h, t-4h]`, anchored on `current_time`. -/
def comparison_snapshot_6h (snapshots : List Snapshot) (current_time : ℚ) :
    Option Snapshot :=
  find_comparison_snapshot snapshots current_time 6 8 4

/-- The 24h comparison lookup of `compute_post_velocity` (velocity.py
lines 155-158): target 24, window `[t-28h, t-20h]`, anchored on `current_time`. -/
def comparison_snapshot_24h (snapshots : List Snapshot) (current_time : ℚ) :
    Option Snapshot :=
  find_comparison_snapshot snapshots current_time 24 28 20

/-- One horizon of `compute_post_velocity` (velocity.py lines 147-151 and
159-163): if a comparison snapshot was found, divide the metric delta by the
elapsed hours between the latest snapshot and the comparison snapshot. -/
def horizon_velocity (current_time : ℚ) (current_metric : Option ℤ)
    (metric_key : MetricKey) : Option Snapshot → Option ℚ
  | some snap =>
      calculate_velocity current_metric (snap.metric metric_key) (current_time - snap.ts)
  | none => none

/-- Embeds `compute_post_velocity` (velocity.py lines 95-165), with the two database
reads (`get_post`, `get_snapshots_for_post`) passed in as parameters.
`snapshots` is ordered by `ts` descending, as `get_snapshots_for_post` returns
it, so the head is the most recent snapshot. -/
def compute_post_velocity (post : Post) (snapshots : List Snapshot) (now : ℚ) :
    VelocityResult :=
  let base : VelocityResult :=
    { post_id := post.post_id
      snapshot_count := snapshots.length
      post_age_hours := some (now - post.published_at) }
  match snapshots with
  | [] => base
  | [_] => base
  | current_snap :: _ :: _ =>
      let current_time := current_snap.ts
      let ck := current_metric_and_key post current_snap
      { base with
        velocity_6h := horizon_velocity current_time ck.1 ck.2
          (comparison_snapshot_6h snapshots current_time)
        velocity_24h := horizon_velocity current_time ck.1 ck.2
          (comparison_snapshot_24h snapshots current_time) }

/-! ## Score engine (src/metrics/scoring.py) -/

def Z_SCORE_MIN : ℚ := -10
def Z_SCORE_MAX : ℚ := 10

def WEIGHT_Z_COMMENTS_6H : ℚ := 0.5
def WEIGHT_Z_VIEWS_6H : ℚ := 0.3
def WEIGHT_Z_VIEWS_24H : ℚ := 0.2

def CLUSTER_BONUS : ℚ := 0.5

/-- Embeds `compute_z_score` (scoring.py lines 39-58). -/
def compute_z_score (value : Option ℚ) (median mad : ℚ) : Option ℚ :=
  match value with
  | none => none
  | some v =>
      if mad ≤ 0 then none
      else some (max Z_SCORE_MIN (min Z_SCORE_MAX ((v - median) / ((1.4826 : ℚ) * mad))))

/-- Embeds `compute_flow_score` (scoring.py lines 61-95). -/
def compute_flow_score (z_comments_6h z_views_6h z_views_24h : Option ℚ)
    (in_cluster : Bool) : Option ℚ :=
  let s0 : ℚ × Bool := (0, false)
  let s1 := match z_comments_6h with
    | some z => (s0.1 + WEIGHT_Z_COMMENTS_6H * z, true)
    | none => s0
  let s2 := match z_views_6h with
    | some z => (s1.1 + WEIGHT_Z_VIEWS_6H * z, true)
    | none => s1
  let s3 := match z_views_24h with
    | some z => (s2.1 + WEIGHT_Z_VIEWS_24H * z, true)
    | none => s2
  if s3.2 = false then none
  else if in_cluster then some (s3.1 + CLUSTER_BONUS)
  else some s3.1

/-! ## Baseline estimator (src/metrics/baseline.py) -/

def AGE_BUCKETS : List (String × ℚ × ℚ) :=
  [("0-6h", 0, 6), ("6-24h", 6, 24), ("24-72h", 24, 72)]

def MIN_SAMPLES : ℕ := 7

def MAX_BASELINE_POSTS : ℕ := 30

/-- Insert into a sorted list, keeping it sorted. -/
def insert_sorted (x : ℚ) : List ℚ → List ℚ
  | [] => [x]
  | y :: ys => if x ≤ y then x :: y :: ys else y :: insert_sorted x ys

/-- Sort ascending (insertion sort).  `statistics.median` sorts its input;
any comparison sort produces the same sorted list of rationals. -/
def sort_values (values : List ℚ) : List ℚ := values.foldr insert_sorted []

/-- Python `statistics.median`: middle element of the sorted data for odd
length, mean of the two middle elements for even length.  (On empty input
Python raises `StatisticsError`; every call site below guards against empty
input, and the 0 default is never reached there.) -/
def statistics_median (values : List ℚ) : ℚ :=
  let s := sort_values values
  let n := s.length
  if n % 2 = 1 then s.getD (n / 2) 0
  else (s.getD (n / 2 - 1) 0 + s.getD (n / 2) 0) / 2

/-- Embeds `compute_mad` (baseline.py lines 40-50). -/
def compute_mad (values : List ℚ) : ℚ :=
  if values = [] then 0
  else
    let med := statistics_median values
    statistics_median (values.map fun v => |v - med|)

/-- Embeds `BaselineResult` (baseline.py lines 28-37). -/
structure BaselineResult where
  actor_id : String
  metric : String
  age_bucket : String
  median : Option ℚ
  mad : Option ℚ
  sample_count : ℕ
  is_valid : Bool
  deriving DecidableEq

/-- Embeds `compute_actor_baseline` (baseline.py lines 61-125).  `values` is the
result of the store query for (actor, metric, bucket): the most recent
non-null metric values for posts of the actor in the age bucket. -/
def compute_actor_baseline (actor_id metric age_bucket : String)
    (values : List ℚ) : BaselineResult :=
  let result : BaselineResult :=
    { actor_id := actor_id, metric := metric, age_bucket := age_bucket,
      median := none, mad := none, sample_count := 0, is_valid := false }
  if (AGE_BUCKETS.find? fun b => b.1 == age_bucket).isNone then result
  else
    let result := { result with sample_count := values.length }
    if MIN_SAMPLES ≤ values.length then
      let mad := compute_mad values
      { result with
        median := some (statistics_median values)
        mad := some mad
        is_valid := decide (0 < mad) }
    else result

/-- Python `a or b` on a nullable rational: `None` and `0.0` are both falsy. -/
def py_or_rat (a : Option ℚ) (b : ℚ) : ℚ :=
  match a with
  | some v => if v = 0 then b else v
  | none => b

/-- One persisted `actor_baselines` row, as written by `upsert_baseline`. -/
structure StoredBaseline where
  actor_id : String
  metric : String
  age_bucket : String
  median : ℚ
  mad : ℚ
  sample_count : ℕ
  deriving DecidableEq

/-- The store decision in the loop body of `compute_all_baselines`
(baseline.py lines 229-240): the row is persisted only when
`result.median is not None`, and the persisted MAD is `result.mad or 0`. -/
def store_step (result : BaselineResult) : Option StoredBaseline :=
  match result.median with
  | some med =>
      some { actor_id := result.actor_id, metric := result.metric,
             age_bucket := result.age_bucket, median := med,
             mad := py_or_rat result.mad 0, sample_count := result.sample_count }
  | none => none

def BASELINE_METRICS : List String := ["velocity_6h", "velocity_24h"]

/-- The rows persisted by `compute_all_baselines` (baseline.py lines 210-248),
looping over actors x metrics x age buckets; `fetch` stands for the store
query feeding `compute_actor_baseline`. -/
def compute_all_baselines_stored (actors : List String)
    (fetch : String → String → String → List ℚ) : List StoredBaseline :=
  actors.flatMap fun actor_id =>
    BASELINE_METRICS.flatMap fun metric =>
      AGE_BUCKETS.filterMap fun b =>
        store_step (compute_actor_baseline actor_id metric b.1 (fetch actor_id metric b.1))

/-! ## Cluster detector (src/metrics/clustering.py) -/

def MIN_Z_SCORE : ℚ := 2
def MIN_POSTS : ℕ := 5
def MIN_ACTORS : ℕ := 3
def MIN_SHARED_TOKENS : ℕ := 3

def STOP_WORDS : List String :=
  ["this", "that", "with", "from", "have", "will", "what", "just",
   "about", "like", "your", "they", "been", "more", "when", "some",
   "there", "were", "would", "into", "which", "than", "then", "them",
   "these", "those", "could", "should", "being", "does", "doing",
   "their", "here", "where", "while", "after", "before", "other"]

/-- A word character of the regex `\b` boundary (`[a-zA-Z0-9_]`; titles are
modelled as ASCII, and the input is lowercased first). -/
def is_word_char (c : Char) : Bool := c.isAlphanum || c = '_'

def is_lower_alpha (c : Char) : Bool := 'a' ≤ c && c ≤ 'z'

/-- Maximal word-character runs of a character list (`cur` is the current
run, reversed). -/
def word_runs_aux : List Char → List Char → List (List Char)
  | cur, [] => if cur.isEmpty then [] else [cur.reverse]
  | cur, c :: cs =>
      if is_word_char c then word_runs_aux (c :: cur) cs
      else if cur.isEmpty then word_runs_aux [] cs
      else cur.reverse :: word_runs_aux [] cs

/-- Embeds `extract_tokens` (clustering.py lines 55-61):
`re.findall(r'\b[a-z]{4,}\b', title.lower())` as a set, minus stop words.
On a maximal word-character run the pattern matches exactly when the run is
entirely lowercase letters and at least 4 long (a digit or underscore next to
a letter is not a word boundary, so mixed runs yield no match). -/
def extract_tokens (title : String) : Finset String :=
  let lowered := title.data.map Char.toLower
  let runs := word_runs_aux [] lowered
  (((runs.filter fun r => 4 ≤ r.length && r.all is_lower_alpha).map
      fun r => String.mk r).filter fun w => !(STOP_WORDS.contains w)).toFinset

/-- Embeds `token_overlap` (clustering.py lines 64-80): intersect the token sets of
all titles, starting from the first. -/
def token_overlap (titles : List String) : Finset String :=
  match titles.map extract_tokens with
  | [] => ∅
  | t :: rest => rest.foldl (· ∩ ·) t

/-- Python `needle in haystack` on strings: substring test. -/
def py_substring (needle haystack : List Char) : Bool :=
  haystack.tails.any fun t => needle.isPrefixOf t

/-- Python `str.lower()` (ASCII model). -/
def str_lower (s : String) : String := String.mk (s.data.map Char.toLower)

/-- Embeds `find_topic_matches` (clustering.py lines 83-94). -/
def find_topic_matches (titles topics : List String) : List String :=
  let combined_text := str_lower (String.intercalate " " titles)
  topics.filter fun topic => py_substring (str_lower topic).data combined_text.data

/-- The columns of an eligible post used by `try_form_cluster`. -/
structure ClusterPost where
  post_id : String
  actor_id : String
  title : String
  z_views_6h : Option ℚ := none
  z_comments_6h : Option ℚ := none
  z_views_24h : Option ℚ := none
  deriving DecidableEq

/-- Embeds `ClusterCandidate` (clustering.py lines 31-40). -/
structure ClusterCandidate where
  source : String
  post_ids : List String
  actor_ids : Finset String
  titles : List String
  shared_tokens : Finset String
  topic_matches : List String
  avg_z_score : ℚ

/-- Embeds `max(p.get(..) or 0, ...)` over the three z columns (clustering.py
lines 180-184). -/
def post_max_z (p : ClusterPost) : ℚ :=
  max (max (py_or_rat p.z_views_6h 0) (py_or_rat p.z_comments_6h 0))
    (py_or_rat p.z_views_24h 0)

/-- The subset loop of `try_form_cluster` (clustering.py lines 158-169):
`for subset_size in range(len(posts), MIN_POSTS - 1, -1)`, first prefix of
the ranking order that meets both the actor and shared-token thresholds. -/
def subset_search (posts : List ClusterPost) : Option (List ClusterPost) :=
  ((List.range (posts.length + 1 - MIN_POSTS)).map fun i => posts.length - i).findSome?
    fun subset_size =>
      let subset := posts.take subset_size
      let subset_shared := token_overlap (subset.map fun p => p.title)
      let subset_actors := (subset.map fun p => p.actor_id).toFinset
      if MIN_ACTORS ≤ subset_actors.card ∧ MIN_SHARED_TOKENS ≤ subset_shared.card
      then some subset else none

/-- Embeds `try_form_cluster` (clustering.py lines 133-199). -/
def try_form_cluster (posts : List ClusterPost) (source : String)
    (topics : List String) : Option ClusterCandidate :=
  if posts.length < MIN_POSTS then none
  else
    let actor_ids := (posts.map fun p => p.actor_id).toFinset
    if actor_ids.card < MIN_ACTORS then none
    else
      let titles := posts.map fun p => p.title
      let shared := token_overlap titles
      let chosen : Option (List ClusterPost × List String × Finset String × Finset String) :=
        if shared.card < MIN_SHARED_TOKENS then
          match subset_search posts with
          | some subset =>
              some (subset, subset.map fun p => p.title,
                    token_overlap (subset.map fun p => p.title),
                    (subset.map fun p => p.actor_id).toFinset)
          | none =>
              if find_topic_matches titles topics = [] then none
              else some (posts, titles, shared, actor_ids)
        else some (posts, titles, shared, actor_ids)
      match chosen with
      | none => none
      | some (ps, ts, sh, acts) =>
          let z_scores := ps.map post_max_z
          let avg_z := if z_scores = [] then 0 else z_scores.sum / (z_scores.length : ℚ)
          some { source := source, post_ids := ps.map fun p => p.post_id,
                 actor_ids := acts, titles := ts, shared_tokens := sh,
                 topic_matches := find_topic_matches ts topics,
                 avg_z_score := avg_z }

/-- The `cluster_type` column written by `detect_clusters` (clustering.py
line 253): `"topic" if candidate.topic_matches else "token_overlap"`. -/
def cluster_type (candidate : ClusterCandidate) : String :=
  if candidate.topic_matches = [] then "token_overlap" else "topic"

/-! ## Snapshot store (src/db.py) -/

/-- One `snapshots` row.  `ts` is the TEXT timestamp column, compared by the
`UNIQUE(post_id, ts)` constraint as a string. -/
structure SnapshotRow where
  post_id : String
  run_id : String
  ts : String
  view_count : Option ℤ := none
  like_count : Option ℤ := none
  comment_count : Option ℤ := none
  score : Option ℤ := none
  num_comments : Option ℤ := none
  deriving DecidableEq

/-- The database state visible to `insert_snapshot`: the key columns of the
`posts` and `runs` tables and the `snapshots` table. -/
structure DbState where
  posts : List String
  runs : List String
  snapshots : List SnapshotRow
  deriving DecidableEq

/-- The conditions under which the INSERT of `insert_snapshot` raises
`sqlite3.IntegrityError`: the `UNIQUE(post_id, ts)` constraint (SCHEMA_SQL
line 69), or — since connections run `PRAGMA foreign_keys = ON` (db.py
line 187) — the `REFERENCES posts(post_id)` / `REFERENCES runs(run_id)`
constraints (SCHEMA_SQL lines 61-62). -/
def integrity_violation (st : DbState) (row : SnapshotRow) : Bool :=
  st.snapshots.any (fun r => r.post_id == row.post_id && r.ts == row.ts)
    || !(st.posts.contains row.post_id) || !(st.runs.contains row.run_id)

/-- Embeds `insert_snapshot` (db.py lines 336-362): try the INSERT, catch
`IntegrityError` as `False`, otherwise append the row and return `True`. -/
def insert_snapshot (st : DbState) (row : SnapshotRow) : DbState × Bool :=
  if integrity_violation st row then (st, false)
  else ({ st with snapshots := st.snapshots ++ [row] }, true)

/-- Number of `snapshots` rows with a given (post_id, ts) key. -/
def pair_count (st : DbState) (pid ts : String) : ℕ :=
  (st.snapshots.filter fun r => r.post_id == pid && r.ts == ts).length

/-! Concrete example inputs and specification-side predicates used by the
theorems below. -/

/-- Snapshot timestamp lies in the acceptance window. -/
abbrev InWindow (window_start window_end : ℚ) (s : Snapshot) : Prop :=
  window_start ≤ s.ts ∧ s.ts ≤ window_end

/-- The claim's selection rule: `s` is an in-window member of the scanned
list, every in-window member scanned before it is strictly farther from the
target time, and every in-window member scanned after it is no closer. -/
def IsFirstClosestInWindow (snapshots : List Snapshot)
    (window_start window_end target_time : ℚ) (s : Snapshot) : Prop :=
  ∃ l₁ l₂, snapshots = l₁ ++ s :: l₂ ∧ InWindow window_start window_end s ∧
    (∀ x ∈ l₁, InWindow window_start window_end x →
      |s.ts - target_time| < |x.ts - target_time|) ∧
    (∀ x ∈ l₂, InWindow window_start window_end x →
      |s.ts - target_time| ≤ |x.ts - target_time|)

/-- The 5 eligible posts of the C4 scenario: same source, 3 distinct actors,
all titles sharing 4 meaningful tokens including the watchlist word. -/
def c4_posts : List ClusterPost :=
  [⟨"p1", "a1", "election fraud claims surge", none, none, none⟩,
   ⟨"p2", "a2", "election fraud claims surge", none, none, none⟩,
   ⟨"p3", "a3", "election fraud claims surge", none, none, none⟩,
   ⟨"p4", "a1", "election fraud claims surge", none, none, none⟩,
   ⟨"p5", "a2", "election fraud claims surge", none, none, none⟩]

def c1_post : Post := ⟨"p1", "reddit", "a1", 0⟩

def c1_head : Snapshot := ⟨100, none, none, none, some 50, none⟩

def c1_snapshots : List Snapshot :=
  [c1_head, ⟨92, none, none, none, some 10, none⟩]

def c2_post : Post := ⟨"p2", "reddit", "a1", 0⟩

def c2_latest : Snapshot := ⟨100, none, none, none, some 0, some 6⟩

def c2_comparison : Snapshot := ⟨94, none, none, none, some 10, some 2⟩

def c2_snapshots : List Snapshot := [c2_latest, c2_comparison]

/-! ## Theorems -/

/-- C5: for every combination of optional z-score inputs (cluster flag at its
default `False`), the flow score is `0.5 * z_comments_6h + 0.3 * z_views_6h
+ 0.2 * z_views_24h` with a missing term contributing 0, and is defined
exactly when at least one term is present; in particular comment-z 2.0,
view6h-z None, view24h-z 1.0 gives 1.2. -/
theorem flow_score_weighted_sum (zc zv6 zv24 : Option ℚ) :
    compute_flow_score zc zv6 zv24 false =
      (if zc = none ∧ zv6 = none ∧ zv24 = none then none
       else some (0.5 * zc.getD 0 + 0.3 * zv6.getD 0 + 0.2 * zv24.getD 0)) ∧
    compute_flow_score (some 2) none (some 1) false = some 1.2 := by
  constructor
  · rcases zc with _ | a <;> rcases zv6 with _ | b <;> rcases zv24 with _ | c <;>
      simp [compute_flow_score, WEIGHT_Z_COMMENTS_6H, WEIGHT_Z_VIEWS_6H,
        WEIGHT_Z_VIEWS_24H]
  · with_unfolding_all decide

/-- C9: whatever the cluster-membership flag, `compute_flow_score` returns
`None` when all three z-scores are missing — the cluster bonus alone never
produces a flow score — and in general the score is defined exactly when at
least one z-score is present. -/
theorem flow_score_none_when_all_z_missing (in_cluster : Bool) (zc zv6 zv24 : Option ℚ) :
    compute_flow_score none none none in_cluster = none ∧
    ((compute_flow_score zc zv6 zv24 in_cluster).isSome ↔
      zc.isSome ∨ zv6.isSome ∨ zv24.isSome) := by
  constructor
  · cases in_cluster <;> rfl
  · rcases zc with _ | a <;> rcases zv6 with _ | b <;> rcases zv24 with _ | c <;>
      cases in_cluster <;> simp [compute_flow_score]

/-- C7: the z-score is `None` exactly when the value is missing or the MAD is
not strictly positive; otherwise it is `(value - median) / (1.4826 * MAD)`
clamped into `[-10, 10]`; every defined z-score lies in `[-10, 10]`; and
`compute_z_score 1000 0 1 = +10` exactly. -/
theorem z_score_clamped (value : Option ℚ) (median mad : ℚ) :
    (compute_z_score value median mad = none ↔ value = none ∨ mad ≤ 0) ∧
    (∀ v, value = some v → 0 < mad →
      compute_z_score value median mad =
        some (max (-10) (min 10 ((v - median) / ((1.4826 : ℚ) * mad))))) ∧
    (∀ z, compute_z_score value median mad = some z → -10 ≤ z ∧ z ≤ 10) ∧
    compute_z_score (some 1000) 0 1 = some 10 := by
  refine ⟨?_, ?_, ?_, by with_unfolding_all decide⟩
  · rcases value with _ | v
    · simp [compute_z_score]
    · by_cases h : mad ≤ 0 <;> simp [compute_z_score, h]
  · rintro v rfl h
    simp [compute_z_score, Z_SCORE_MIN, Z_SCORE_MAX, not_le.mpr h]
  · intro z hz
    rcases value with _ | v
    · simp [compute_z_score] at hz
    · by_cases h : mad ≤ 0
      · simp [compute_z_score, h] at hz
      · simp [compute_z_score, h, Z_SCORE_MIN, Z_SCORE_MAX] at hz
        constructor
        · rw [← hz]; exact le_max_left _ _
        · rw [← hz]
          exact max_le (by norm_num) (min_le_left _ _)

/-- C8: a computed baseline is valid exactly when its sample count reaches
`MIN_SAMPLES = 7` and its MAD is strictly positive; with fewer samples it is
invalid even when the median and MAD would be computable (e.g. on `[1,2,3]`,
whose MAD is positive). -/
theorem baseline_valid_iff (actor_id metric age_bucket : String) (values : List ℚ) :
    ((compute_actor_baseline actor_id metric age_bucket values).is_valid = true ↔
      MIN_SAMPLES ≤ (compute_actor_baseline actor_id metric age_bucket values).sample_count ∧
      ∃ m0, (compute_actor_baseline actor_id metric age_bucket values).mad = some m0 ∧ 0 < m0) ∧
    ((compute_actor_baseline "a" "velocity_6h" "0-6h" [1, 2, 3]).is_valid = false ∧
      0 < compute_mad [1, 2, 3]) := by
  refine ⟨?_, by with_unfolding_all decide⟩
  unfold compute_actor_baseline
  by_cases hb : (AGE_BUCKETS.find? fun b => b.1 == age_bucket).isNone
  · simp [hb, MIN_SAMPLES]
  · by_cases hn : MIN_SAMPLES ≤ values.length
    · simp [hb, hn]
    · simp [hb, hn]

lemma find_age_bucket_not_none (age_bucket : String)
    (hb : age_bucket ∈ AGE_BUCKETS.map fun b => b.1) :
    ¬ (AGE_BUCKETS.find? fun b => b.1 == age_bucket).isNone := by
  rw [Option.isNone_iff_eq_none, ← Option.not_isSome_iff_eq_none, not_not]
  rw [List.find?_isSome]
  obtain ⟨b, hbmem, hb1⟩ := List.mem_map.mp hb
  exact ⟨b, hbmem, by simp [hb1]⟩

/-- C3 (amended): in the baseline run an (actor, metric, bucket) row is
persisted exactly when the sample count reaches `MIN_SAMPLES` (that is when
`result.median is not None`); an invalid baseline with enough samples but
zero MAD is still persisted, while a combination with fewer samples is not
persisted at all. -/
theorem baseline_persisted_iff_enough_samples (actor_id metric age_bucket : String)
    (values : List ℚ) (hb : age_bucket ∈ AGE_BUCKETS.map fun b => b.1) :
    ((store_step (compute_actor_baseline actor_id metric age_bucket values)).isSome ↔
      MIN_SAMPLES ≤ values.length) ∧
    (store_step (compute_actor_baseline actor_id metric age_bucket
      (List.replicate 7 1))).isSome = true ∧
    (compute_actor_baseline actor_id metric age_bucket (List.replicate 7 1)).is_valid = false := by
  have hfind := find_age_bucket_not_none age_bucket hb
  have hmad : compute_mad [1, 1, 1, 1, 1, 1, 1] = 0 := by with_unfolding_all decide
  refine ⟨?_, ?_, ?_⟩
  · unfold compute_actor_baseline
    by_cases hn : MIN_SAMPLES ≤ values.length <;> simp [hfind, hn, store_step]
  · unfold compute_actor_baseline
    simp [hfind, store_step, MIN_SAMPLES]
  · unfold compute_actor_baseline
    simp [hfind, MIN_SAMPLES, hmad]

theorem baseline_persisted_iff_enough_samples_witness :
    ("0-6h" ∈ AGE_BUCKETS.map fun b => b.1) ∧
    ((((store_step (compute_actor_baseline "a1" "velocity_6h" "0-6h" [])).isSome ↔
        MIN_SAMPLES ≤ ([] : List ℚ).length) ∧
      (store_step (compute_actor_baseline "a1" "velocity_6h" "0-6h"
        (List.replicate 7 1))).isSome = true ∧
      (compute_actor_baseline "a1" "velocity_6h" "0-6h" (List.replicate 7 1)).is_valid = false)) :=
  ⟨by decide, baseline_persisted_iff_enough_samples "a1" "velocity_6h" "0-6h" [] (by decide)⟩

/-- C3 counterexample: an actor processed by the baseline run whose query
yields only 3 samples gets an invalid below-minimum baseline, and the run
persists nothing at all for it (the claim asserts the row is persisted even
then). -/
theorem baseline_below_min_not_persisted :
    (compute_actor_baseline "a1" "velocity_6h" "0-6h" [1, 2, 3]).is_valid = false ∧
    (compute_actor_baseline "a1" "velocity_6h" "0-6h" [1, 2, 3]).sample_count = 3 ∧
    compute_all_baselines_stored ["a1"] (fun _ _ _ => [1, 2, 3]) = [] := by
  with_unfolding_all decide

/-- C6 (amended): inserting a snapshot whose (post_id, ts) pair is fresh and
whose post and run exist inserts exactly one row and returns True, and
re-inserting the same pair afterwards returns False (not an error) and
leaves the table unchanged, with exactly one row for the pair. -/
theorem insert_snapshot_idempotent (st : DbState) (row : SnapshotRow)
    (hp : row.post_id ∈ st.posts) (hr : row.run_id ∈ st.runs)
    (hfresh : pair_count st row.post_id row.ts = 0) :
    (insert_snapshot st row).2 = true ∧
    (insert_snapshot st row).1.snapshots = st.snapshots ++ [row] ∧
    pair_count (insert_snapshot st row).1 row.post_id row.ts = 1 ∧
    (insert_snapshot (insert_snapshot st row).1 row).2 = false ∧
    (insert_snapshot (insert_snapshot st row).1 row).1 = (insert_snapshot st row).1 := by
  have hnil : st.snapshots.filter (fun r => r.post_id == row.post_id && r.ts == row.ts) = [] :=
    List.length_eq_zero.mp hfresh
  have hnotany : st.snapshots.any (fun r => r.post_id == row.post_id && r.ts == row.ts) = false := by
    rw [List.any_eq_false]
    intro x hx
    exact (List.filter_eq_nil_iff.mp hnil) x hx
  have hviol : integrity_violation st row = false := by
    simp [integrity_violation, hnotany, hp, hr]
  have hins : insert_snapshot st row =
      ({ st with snapshots := st.snapshots ++ [row] }, true) := by
    simp [insert_snapshot, hviol]
  have hself : (row.post_id == row.post_id && row.ts == row.ts) = true := by simp
  have hany2 : ({ st with snapshots := st.snapshots ++ [row] } : DbState).snapshots.any
      (fun r => r.post_id == row.post_id && r.ts == row.ts) = true := by
    simp [List.any_append]
  have hviol2 : integrity_violation { st with snapshots := st.snapshots ++ [row] } row = true := by
    simp only [integrity_violation, hany2, Bool.true_or]
  refine ⟨by simp [hins], by simp [hins], ?_, ?_, ?_⟩
  · simp [hins, pair_count, List.filter_append, hnil, hself]
  · rw [hins]
    simp [insert_snapshot, hviol2]
  · rw [hins]
    simp [insert_snapshot, hviol2]

theorem insert_snapshot_idempotent_witness :
    ("p1" ∈ (⟨["p1"], ["r1"], []⟩ : DbState).posts) ∧
    ("r1" ∈ (⟨["p1"], ["r1"], []⟩ : DbState).runs) ∧
    pair_count ⟨["p1"], ["r1"], []⟩ "p1" "2024-01-01T00:00:00" = 0 ∧
    ((insert_snapshot ⟨["p1"], ["r1"], []⟩
        ⟨"p1", "r1", "2024-01-01T00:00:00", none, none, none, none, none⟩).2 = true ∧
      (insert_snapshot ⟨["p1"], ["r1"], []⟩
        ⟨"p1", "r1", "2024-01-01T00:00:00", none, none, none, none, none⟩).1.snapshots =
        ([] : List SnapshotRow) ++ [⟨"p1", "r1", "2024-01-01T00:00:00", none, none, none, none, none⟩] ∧
      pair_count (insert_snapshot ⟨["p1"], ["r1"], []⟩
        ⟨"p1", "r1", "2024-01-01T00:00:00", none, none, none, none, none⟩).1
        "p1" "2024-01-01T00:00:00" = 1 ∧
      (insert_snapshot (insert_snapshot ⟨["p1"], ["r1"], []⟩
        ⟨"p1", "r1", "2024-01-01T00:00:00", none, none, none, none, none⟩).1
        ⟨"p1", "r1", "2024-01-01T00:00:00", none, none, none, none, none⟩).2 = false ∧
      (insert_snapshot (insert_snapshot ⟨["p1"], ["r1"], []⟩
        ⟨"p1", "r1", "2024-01-01T00:00:00", none, none, none, none, none⟩).1
        ⟨"p1", "r1", "2024-01-01T00:00:00", none, none, none, none, none⟩).1 =
        (insert_snapshot ⟨["p1"], ["r1"], []⟩
          ⟨"p1", "r1", "2024-01-01T00:00:00", none, none, none, none, none⟩).1) :=
  ⟨by decide, by decide, by decide,
    insert_snapshot_idempotent ⟨["p1"], ["r1"], []⟩
      ⟨"p1", "r1", "2024-01-01T00:00:00", none, none, none, none, none⟩
      (by decide) (by decide) (by decide)⟩

/-- C6 counterexample: with `PRAGMA foreign_keys = ON` and the snapshots
table's `REFERENCES posts(post_id)` / `REFERENCES runs(run_id)` constraints,
inserting a snapshot with a fresh (post_id, ts) pair whose post does not
exist raises `IntegrityError`, which `insert_snapshot` reports as False
without inserting a row — refuting "for every fresh pair it inserts one row
and returns True". -/
theorem insert_snapshot_fresh_pair_not_inserted :
    pair_count ⟨[], [], []⟩ "p1" "2024-01-01T00:00:00" = 0 ∧
    insert_snapshot ⟨[], [], []⟩ ⟨"p1", "r1", "2024-01-01T00:00:00", none, none, none, none, none⟩ =
      (⟨[], [], []⟩, false) := by
  decide

lemma foldl_inter_subset (a : Finset String) (l : List (Finset String)) :
    l.foldl (· ∩ ·) a ⊆ a := by
  induction l generalizing a with
  | nil => simp
  | cons b t ih => exact (ih (a ∩ b)).trans Finset.inter_subset_left

lemma token_overlap_cons (t : String) (rest : List String) :
    token_overlap (t :: rest) =
      (rest.map extract_tokens).foldl (· ∩ ·) (extract_tokens t) := rfl

/-- C10: the shared-token computation is anti-monotone in the group — for a
non-empty prefix `p` of a title list, the token intersection of the whole
list is contained in the token intersection of the prefix, so shrinking a
candidate group during the subset search can only gain shared tokens. -/
theorem token_overlap_anti_monotone (p q : List String) (hp : p ≠ []) :
    token_overlap (p ++ q) ⊆ token_overlap p := by
  match p, hp with
  | x :: p', _ =>
    rw [List.cons_append, token_overlap_cons, token_overlap_cons, List.map_append,
      List.foldl_append]
    exact foldl_inter_subset _ _

theorem token_overlap_anti_monotone_witness :
    ((["election fraud claims"] : List String) ≠ []) ∧
    token_overlap (["election fraud claims"] ++ ["election data"]) ⊆
      token_overlap ["election fraud claims"] :=
  ⟨by decide, token_overlap_anti_monotone ["election fraud claims"] ["election data"] (by decide)⟩

/-- C4 counterexample: a group that meets the post-count, actor-count and
full-group shared-token thresholds is nonetheless recorded with cluster type
"topic" whenever a watchlist topic also matches the titles — refuting
"meeting the token threshold yields type token_overlap, topic being only the
fallback". -/
theorem token_overlap_group_typed_topic :
    MIN_POSTS ≤ c4_posts.length ∧
    MIN_ACTORS ≤ ((c4_posts.map fun p => p.actor_id).toFinset).card ∧
    MIN_SHARED_TOKENS ≤ (token_overlap (c4_posts.map fun p => p.title)).card ∧
    (try_form_cluster c4_posts "reddit" ["election"]).map cluster_type = some "topic" := by
  decide

/-- C4 (amended): a group meeting the post-count, actor-count and full-group
shared-token thresholds always forms a cluster, and its recorded type is
"token_overlap" exactly when no watchlist topic occurs (case-insensitively)
in the concatenated titles; when a topic matches, the type is "topic" even
though the token-overlap criterion held. -/
theorem cluster_type_topic_takes_precedence (posts : List ClusterPost) (source : String)
    (topics : List String)
    (h1 : MIN_POSTS ≤ posts.length)
    (h2 : MIN_ACTORS ≤ ((posts.map fun p => p.actor_id).toFinset).card)
    (h3 : MIN_SHARED_TOKENS ≤ (token_overlap (posts.map fun p => p.title)).card) :
    ∃ c, try_form_cluster posts source topics = some c ∧
      c.titles = posts.map (fun p => p.title) ∧
      c.shared_tokens = token_overlap (posts.map fun p => p.title) ∧
      c.topic_matches = find_topic_matches (posts.map fun p => p.title) topics ∧
      cluster_type c =
        (if find_topic_matches (posts.map fun p => p.title) topics = []
         then "token_overlap" else "topic") := by
  have h1' : ¬ posts.length < MIN_POSTS := Nat.not_lt.mpr h1
  have h2' : ¬ ((posts.map fun p => p.actor_id).toFinset).card < MIN_ACTORS := Nat.not_lt.mpr h2
  have h3' : ¬ (token_overlap (posts.map fun p => p.title)).card < MIN_SHARED_TOKENS :=
    Nat.not_lt.mpr h3
  refine ⟨{ source := source,
            post_ids := posts.map fun p => p.post_id,
            actor_ids := (posts.map fun p => p.actor_id).toFinset,
            titles := posts.map fun p => p.title,
            shared_tokens := token_overlap (posts.map fun p => p.title),
            topic_matches := find_topic_matches (posts.map fun p => p.title) topics,
            avg_z_score := if posts.map post_max_z = [] then 0
              else (posts.map post_max_z).sum / ((posts.map post_max_z).length : ℚ) },
          ?_, rfl, rfl, rfl, ?_⟩
  · simp only [try_form_cluster, if_neg h1', if_neg h2', if_neg h3']
  · simp only [cluster_type]

theorem cluster_type_topic_takes_precedence_witness :
    MIN_POSTS ≤ c4_posts.length ∧
    MIN_ACTORS ≤ ((c4_posts.map fun p => p.actor_id).toFinset).card ∧
    MIN_SHARED_TOKENS ≤ (token_overlap (c4_posts.map fun p => p.title)).card ∧
    ∃ c, try_form_cluster c4_posts "reddit" [] = some c ∧
      c.titles = c4_posts.map (fun p => p.title) ∧
      c.shared_tokens = token_overlap (c4_posts.map fun p => p.title) ∧
      c.topic_matches = find_topic_matches (c4_posts.map fun p => p.title) [] ∧
      cluster_type c =
        (if find_topic_matches (c4_posts.map fun p => p.title) [] = []
         then "token_overlap" else "topic") :=
  ⟨by decide, by decide, by decide,
    cluster_type_topic_takes_precedence c4_posts "reddit" []
      (by decide) (by decide) (by decide)⟩

lemma fcs_step_some (ws we tt : ℚ) (p : Snapshot × ℚ) (snap : Snapshot) :
    ∃ q, fcs_step ws we tt (some p) snap = some q := by
  unfold fcs_step
  obtain ⟨b, bd⟩ := p
  split
  · dsimp only
    split
    · exact ⟨_, rfl⟩
    · exact ⟨_, rfl⟩
  · exact ⟨_, rfl⟩

lemma fcs_foldl_some (ws we tt : ℚ) (l : List Snapshot) (p : Snapshot × ℚ) :
    ∃ q, l.foldl (fcs_step ws we tt) (some p) = some q := by
  induction l generalizing p with
  | nil => exact ⟨p, rfl⟩
  | cons a t ih =>
      obtain ⟨q, hq⟩ := fcs_step_some ws we tt p a
      obtain ⟨r, hr⟩ := ih q
      exact ⟨r, by rw [List.foldl_cons, hq, hr]⟩

lemma fcs_foldl_none (ws we tt : ℚ) (l : List Snapshot) :
    l.foldl (fcs_step ws we tt) none = none ↔ ∀ x ∈ l, ¬ InWindow ws we x := by
  induction l with
  | nil => simp
  | cons a t ih =>
      rw [List.foldl_cons]
      by_cases h : InWindow ws we a
      · have hstep : fcs_step ws we tt none a = some (a, |a.ts - tt|) := by
          unfold fcs_step; rw [if_pos h]
        rw [hstep]
        obtain ⟨q, hq⟩ := fcs_foldl_some ws we tt t (a, |a.ts - tt|)
        rw [hq]
        exact ⟨fun hcon => absurd hcon (Option.some_ne_none q),
               fun hall => absurd h (hall a (List.mem_cons_self a t))⟩
      · have hstep : fcs_step ws we tt none a = none := by
          unfold fcs_step; rw [if_neg h]
        rw [hstep, ih]
        constructor
        · intro hall x hx
          rcases List.mem_cons.mp hx with rfl | hx2
          · exact h
          · exact hall x hx2
        · intro hall x hx
          exact hall x (List.mem_cons_of_mem a hx)

lemma fcs_foldl_first_closest (ws we tt : ℚ) (l : List Snapshot) :
    ∀ s d, l.foldl (fcs_step ws we tt) none = some (s, d) →
      d = |s.ts - tt| ∧ IsFirstClosestInWindow l ws we tt s := by
  induction l using List.reverseRecOn with
  | nil => intro s d h; cases h
  | append_singleton l a ih =>
      intro s d h
      rw [List.foldl_append, List.foldl_cons, List.foldl_nil] at h
      rcases hl : l.foldl (fcs_step ws we tt) none with _ | ⟨b, bd⟩
      · rw [hl] at h
        by_cases hw : ws ≤ a.ts ∧ a.ts ≤ we
        · have hstep : fcs_step ws we tt none a = some (a, |a.ts - tt|) := by
            unfold fcs_step; rw [if_pos hw]
          rw [hstep] at h
          injection h with h1
          injection h1 with h2 h3
          subst h2; subst h3
          refine ⟨rfl, l, [], rfl, hw, ?_, by simp⟩
          intro x hx hxw
          exact absurd hxw ((fcs_foldl_none ws we tt l).mp hl x hx)
        · have hstep : fcs_step ws we tt none a = none := by
            unfold fcs_step; rw [if_neg hw]
          rw [hstep] at h
          cases h
      · rw [hl] at h
        obtain ⟨hbd, l₁, l₂, hdec, hbw, hstrict, hle⟩ := ih b bd hl
        by_cases hw : ws ≤ a.ts ∧ a.ts ≤ we
        · have hstep : fcs_step ws we tt (some (b, bd)) a =
              if |a.ts - tt| < bd then some (a, |a.ts - tt|) else some (b, bd) := by
            unfold fcs_step; rw [if_pos hw]
          rw [hstep] at h
          by_cases hlt : |a.ts - tt| < bd
          · rw [if_pos hlt] at h
            injection h with h1
            injection h1 with h2 h3
            subst h2; subst h3
            refine ⟨rfl, l, [], rfl, hw, ?_, by simp⟩
            intro x hx hxw
            subst hbd
            rw [hdec] at hx
            rcases List.mem_append.mp hx with hx1 | hx2
            · exact hlt.trans (hstrict x hx1 hxw)
            · rcases List.mem_cons.mp hx2 with rfl | hx3
              · exact hlt
              · exact hlt.trans_le (hle x hx3 hxw)
          · rw [if_neg hlt] at h
            injection h with h1
            injection h1 with h2 h3
            subst h2; subst h3
            refine ⟨hbd, l₁, l₂ ++ [a], by rw [hdec]; simp, hbw, hstrict, ?_⟩
            intro x hx hxw
            rcases List.mem_append.mp hx with hx1 | hx2
            · exact hle x hx1 hxw
            · rcases List.mem_cons.mp hx2 with rfl | hx3
              · subst hbd; exact not_lt.mp hlt
              · cases hx3
        · have hstep : fcs_step ws we tt (some (b, bd)) a = some (b, bd) := by
            unfold fcs_step; rw [if_neg hw]
          rw [hstep] at h
          injection h with h1
          injection h1 with h2 h3
          subst h2; subst h3
          refine ⟨hbd, l₁, l₂ ++ [a], by rw [hdec]; simp, hbw, hstrict, ?_⟩
          intro x hx hxw
          rcases List.mem_append.mp hx with hx1 | hx2
          · exact hle x hx1 hxw
          · rcases List.mem_cons.mp hx2 with rfl | hx3
            · exact absurd hxw hw
            · cases hx3

lemma find_comparison_snapshot_sound (snapshots : List Snapshot)
    (now target ws we : ℚ) (s : Snapshot)
    (h : find_comparison_snapshot snapshots now target ws we = some s) :
    IsFirstClosestInWindow snapshots (now - ws) (now - we) (now - target) s := by
  unfold find_comparison_snapshot at h
  rcases hm : snapshots.foldl
      (fcs_step (now - ws) (now - we) (now - target)) none with _ | ⟨b, bd⟩
  · rw [hm] at h; cases h
  · rw [hm] at h
    have hb : b = s := by
      simpa using h
    subst hb
    exact (fcs_foldl_first_closest (now - ws) (now - we) (now - target) snapshots b bd hm).2

/-- C1 (amended): for a post with at least 2 snapshots, both horizon
comparisons of `compute_post_velocity` are selected by
`find_comparison_snapshot` anchored on the latest snapshot's timestamp
`t0 = current_snap.ts` (not on the `now` argument): the 6h window is
`[t0-8h, t0-4h]` with target `t0-6h` and the 24h window is `[t0-28h, t0-20h]`
with target `t0-24h`, and any snapshot selected is the in-window candidate
closest to the target, the first-scanned winning ties. -/
theorem velocity_comparison_anchored_on_latest_snapshot
    (post : Post) (snapshots : List Snapshot) (now : ℚ) (current_snap : Snapshot)
    (hlen : 2 ≤ snapshots.length) (hhead : snapshots.head? = some current_snap) :
    ((compute_post_velocity post snapshots now).velocity_6h =
        horizon_velocity current_snap.ts (current_metric_and_key post current_snap).1
          (current_metric_and_key post current_snap).2
          (comparison_snapshot_6h snapshots current_snap.ts) ∧
      (compute_post_velocity post snapshots now).velocity_24h =
        horizon_velocity current_snap.ts (current_metric_and_key post current_snap).1
          (current_metric_and_key post current_snap).2
          (comparison_snapshot_24h snapshots current_snap.ts)) ∧
    (∀ s, comparison_snapshot_6h snapshots current_snap.ts = some s →
        IsFirstClosestInWindow snapshots (current_snap.ts - 8) (current_snap.ts - 4)
          (current_snap.ts - 6) s) ∧
    (∀ s, comparison_snapshot_24h snapshots current_snap.ts = some s →
        IsFirstClosestInWindow snapshots (current_snap.ts - 28) (current_snap.ts - 20)
          (current_snap.ts - 24) s) := by
  obtain ⟨a, t, rfl⟩ : ∃ a t, snapshots = a :: t := by
    cases snapshots with
    | nil => simp at hlen
    | cons a t => exact ⟨a, t, rfl⟩
  obtain ⟨b, t2, rfl⟩ : ∃ b t2, t = b :: t2 := by
    cases t with
    | nil => simp at hlen
    | cons b t2 => exact ⟨b, t2, rfl⟩
  obtain rfl : a = current_snap := by simpa using hhead
  refine ⟨⟨rfl, rfl⟩, ?_, ?_⟩
  · intro s hs
    exact find_comparison_snapshot_sound _ _ 6 8 4 s hs
  · intro s hs
    exact find_comparison_snapshot_sound _ _ 24 28 20 s hs

theorem velocity_comparison_anchored_on_latest_snapshot_witness :
    2 ≤ c1_snapshots.length ∧ c1_snapshots.head? = some c1_head ∧
    (((compute_post_velocity c1_post c1_snapshots 110).velocity_6h =
        horizon_velocity c1_head.ts (current_metric_and_key c1_post c1_head).1
          (current_metric_and_key c1_post c1_head).2
          (comparison_snapshot_6h c1_snapshots c1_head.ts) ∧
      (compute_post_velocity c1_post c1_snapshots 110).velocity_24h =
        horizon_velocity c1_head.ts (current_metric_and_key c1_post c1_head).1
          (current_metric_and_key c1_post c1_head).2
          (comparison_snapshot_24h c1_snapshots c1_head.ts)) ∧
    (∀ s, comparison_snapshot_6h c1_snapshots c1_head.ts = some s →
        IsFirstClosestInWindow c1_snapshots (c1_head.ts - 8) (c1_head.ts - 4)
          (c1_head.ts - 6) s) ∧
    (∀ s, comparison_snapshot_24h c1_snapshots c1_head.ts = some s →
        IsFirstClosestInWindow c1_snapshots (c1_head.ts - 28) (c1_head.ts - 20)
          (c1_head.ts - 24) s)) :=
  ⟨by decide, by decide,
    velocity_comparison_anchored_on_latest_snapshot c1_post c1_snapshots 110 c1_head
      (by decide) (by decide)⟩

/-- C1 counterexample: with `now = 110` and snapshots at t=100 and t=92, the
now-anchored 6h acceptance window `[now-8h, now-4h] = [102, 106]` contains no
snapshot at all, yet `compute_post_velocity` still produces a 6h velocity
(it selects the snapshot at 92, in the window anchored on the latest
snapshot's timestamp 100) — so the comparison snapshot is not selected from
a window anchored on the computation time passed to the calculator. -/
theorem velocity_window_not_anchored_on_now :
    (compute_post_velocity c1_post c1_snapshots 110).velocity_6h = some 5 ∧
    find_comparison_snapshot c1_snapshots 110 6 8 4 = none := by
  with_unfolding_all decide

/-- C2: on a reddit post whose latest snapshot has score 0 (present) and
6 comments, `current_metric = score or num_comments` falls through the
present score to the comment count (6) while `metric_key` is still "score",
so the comparison value is read from the score column: the produced velocity
(6-10)/6 = -2/3 matches neither an all-score computation ((0-10)/6 = -5/3)
nor an all-comments computation ((6-2)/6 = 2/3) — the two readings come from
different fields, against the code's own field-naming intent and the spec. -/
theorem reddit_metric_field_mismatch_at_zero_score :
    c2_latest.score = some 0 ∧ c2_latest.num_comments = some 6 ∧
    current_metric_and_key c2_post c2_latest = (some 6, MetricKey.score) ∧
    comparison_snapshot_6h c2_snapshots c2_latest.ts = some c2_comparison ∧
    (compute_post_velocity c2_post c2_snapshots 100).velocity_6h = some (-2/3) ∧
    calculate_velocity (c2_latest.metric MetricKey.score)
      (c2_comparison.metric MetricKey.score) 6 = some (-5/3) ∧
    calculate_velocity (c2_latest.metric MetricKey.num_comments)
      (c2_comparison.metric MetricKey.num_comments) 6 = some (2/3) ∧
    (-2/3 : ℚ) ≠ -5/3 ∧ (-2/3 : ℚ) ≠ 2/3 := by
  with_unfolding_all decide
